import Mathlib

/-!
Shallow embedding of the openomf engine core (`src/engine.c`), covering the
lifecycle controller (`engine_init`), the per-frame scheduler (`engine_loop`),
and the process-wide run flag.  The model targets the normal desktop build
(the `STANDALONE_SERVER` sections compiled out, `EMSCRIPTEN` cancellation
modelled as a `stopped` effect).  External collaborators (SDL, video, audio,
game state, console) are represented at their call boundary: their results are
inputs, their invocations are recorded as effects.
-/

namespace OpenOMF

/-- Keys the engine loop inspects on `SDL_KEYDOWN` (engine.c lines 143-205).
All other keysyms behave identically and are collapsed into `otherKey`. -/
inductive Key
  | f1 | f5 | space | f6 | tab | backquote | escape | otherKey
deriving DecidableEq

/-- Window sub-events the loop inspects on `SDL_WINDOWEVENT` (lines 161-187). -/
inductive WinEv
  | minimized | hidden | maximized | restored | shown | otherWin
deriving DecidableEq

/-- SDL events relevant to `engine_loop`.  A keydown carries the keysym and
whether the hardware scancode is `SDL_SCANCODE_GRAVE` (checked separately from
the keysym in the console-toggle logic, lines 193 and 201). -/
inductive Event
  | quit
  | keydown (sym : Key) (scancodeGrave : Bool)
  | mousemotion
  | window (w : WinEv)
  | otherEvent
deriving DecidableEq

/-- Destination of one drained event (lines 209-213): the console's event
handler or the game state's event handler. -/
inductive Handler
  | console | game
deriving DecidableEq

/-- Mutable state touched by `engine_loop`: the `EngineContext` fields, the
file-static globals (`run`, `take_screenshot`, `enable_screen_updates`), the
console overlay's open flag, and the SDL cursor visibility.
`frame_start` is not carried: the per-iteration wall-clock delta
`SDL_GetTicks() - frame_start` is supplied as an input instead. -/
structure LoopState where
  run : Bool
  take_screenshot : Bool
  enable_screen_updates : Bool
  console_open : Bool
  visual_debugger : Bool
  debugger_proceed : Bool
  debugger_render : Bool
  mouse_visible_ticks : Int
  static_wait : Nat
  dynamic_wait : Nat
  cursor_shown : Bool
deriving DecidableEq

/-- The `SDL_KEYDOWN` arm of the event switch (lines 143-156): four
independent checks against F1 / F5 / SPACE / F6. -/
def apply_keydown (s : LoopState) (sym : Key) : LoopState :=
  let s1 := if sym = Key.f1 then { s with take_screenshot := true } else s
  let s2 := if sym = Key.f5 then { s1 with visual_debugger := !s1.visual_debugger } else s1
  let s3 := if sym = Key.space then { s2 with debugger_proceed := true } else s2
  if sym = Key.f6 then { s3 with debugger_render := !s3.debugger_render } else s3

/-- The `switch(e.type)` block of the event loop (lines 139-189).  The
`RESTORED` arm's conditional renderer re-initialization is an external video
call with no modelled state. -/
def apply_switch (s : LoopState) (e : Event) : LoopState :=
  match e with
  | Event.quit => { s with run := false }
  | Event.keydown sym _ => apply_keydown s sym
  | Event.mousemotion => { s with mouse_visible_ticks := 1000, cursor_shown := true }
  | Event.window w =>
    match w with
    | WinEv.minimized => { s with enable_screen_updates := false }
    | WinEv.hidden => { s with enable_screen_updates := false }
    | WinEv.maximized => { s with enable_screen_updates := true }
    | WinEv.restored => { s with enable_screen_updates := true }
    | WinEv.shown => { s with enable_screen_updates := true }
    | WinEv.otherWin => s
  | Event.otherEvent => s

/-- Console toggling and event dispatch (lines 192-213).  The two toggle
branches end in `continue`, so a toggling event reaches neither handler
(`none`); every other event goes to the console handler when the console
window is open and to the game-state handler otherwise. -/
def console_dispatch (s : LoopState) (e : Event) : LoopState × Option Handler :=
  match e with
  | Event.keydown sym grave =>
    if s.console_open = true ∧
        (grave = true ∨ sym = Key.backquote ∨ sym = Key.tab ∨ sym = Key.escape) then
      ({ s with console_open := false }, none)
    else if sym = Key.tab ∨ sym = Key.backquote ∨ grave = true then
      ({ s with console_open := true }, none)
    else if s.console_open = true then (s, some Handler.console)
    else (s, some Handler.game)
  | _ =>
    if s.console_open = true then (s, some Handler.console)
    else (s, some Handler.game)

/-- Processing of one polled SDL event: the type switch, then the console
toggle / dispatch section (one body of the `while(SDL_PollEvent(...))` loop,
lines 137-214). -/
def handle_sdl_event (s : LoopState) (e : Event) : LoopState × Option Handler :=
  console_dispatch (apply_switch s e) e

/-- The full `while(SDL_PollEvent(&ctx->e))` drain, over the (finite) queue of
pending events, recording where each event was dispatched (`none` for the
console-toggle events consumed by `continue`). -/
def drain_events (s : LoopState) (es : List Event) : LoopState × List (Option Handler) :=
  match es with
  | [] => (s, [])
  | e :: rest =>
    let p := handle_sdl_event s e
    let q := drain_events p.1 rest
    (q.1, p.2 :: q.2)

/-- Mouse-hide countdown (lines 217-222): only while the countdown is
positive is the elapsed delta subtracted, and `SDL_ShowCursor(0)` fires
exactly when the result drops to zero or below.  Returns the new countdown
and whether the hide call fired. -/
def mouse_hide_step (mvt : Int) (dt : Int) : Int × Bool :=
  if mvt > 0 then
    let m := mvt - dt
    (m, decide (m ≤ 0))
  else (mvt, false)

/-- The mouse-hide phase applied to the loop state: updates the countdown and,
when the hide fired, records the cursor as hidden (`SDL_ShowCursor(0)`).
Returns the new state and whether the hide call fired this iteration. -/
def mouse_phase (s : LoopState) (dt : Nat) : LoopState × Bool :=
  let mh := mouse_hide_step s.mouse_visible_ticks (dt : Int)
  ({ s with mouse_visible_ticks := mh.1,
            cursor_shown := if mh.2 then false else s.cursor_shown }, mh.2)

/-- Accumulator advancement (lines 230-237): outside the visual debugger both
accumulators gain the wall-clock delta; inside it they gain a fixed 20 ms
quantum only when a single step was requested, and the request flag is
cleared.  Returns the new state and the amount added to each accumulator. -/
def advance_accumulators (s : LoopState) (dt : Nat) : LoopState × Nat :=
  if s.visual_debugger = false then
    ({ s with dynamic_wait := s.dynamic_wait + dt, static_wait := s.static_wait + dt }, dt)
  else if s.debugger_proceed = true then
    ({ s with dynamic_wait := s.dynamic_wait + 20, static_wait := s.static_wait + 20,
              debugger_proceed := false }, 20)
  else (s, 0)

/-- Fuel-indexed body of the drain `while` loops (lines 238-249 and 250-256):
`while (wait > period) { tick; wait -= period; }`.  Returns the residual
wait and the number of tick invocations.  The extra `0 < p` conjunct is
vacuous for every positive period and only rules out the source's
non-terminating behaviour for a zero dynamic period; a fuel of `w` suffices
because each pass removes `p ≥ 1` from the wait. -/
def drain_go (p : Nat) : Nat → Nat → Nat × Nat
  | 0, w => (w, 0)
  | Nat.succ fuel, w =>
    if p < w ∧ 0 < p then
      let r := drain_go p fuel (w - p)
      (r.1, r.2 + 1)
    else (w, 0)

/-- Drain loop over a wait accumulator with period `p` (the source's
`while(wait > p)`), as residual wait plus tick count. -/
def drain_wait (p w : Nat) : Nat × Nat := drain_go p w w

/-- Observable outcome of the screenshot service block (lines 276-297):
whether `video_screenshot` was invoked, the chosen filename (none when the
capture itself failed and the write was skipped), the write result, what got
logged, and whether `image_free` ran. -/
structure ScreenshotOutcome where
  attempted : Bool
  filename : Option String
  write_failed : Bool
  logged_error : Bool
  logged_success : Bool
  freed : Bool
deriving DecidableEq

/-- The screenshot service block (lines 276-297): capture, then — only if the
capture succeeded — pick `screenshot_<ticks>.png` when PNG encoding is
supported and `screenshot_<ticks>.tga` otherwise, write it, and log `PERROR`
on write failure or `DEBUG` on success; `image_free` runs unconditionally.
A failed capture skips the whole write/log section. -/
def service_screenshot (png_ok : Bool) (capture_fails : Bool) (write_fails : Bool)
    (ticks : Nat) : ScreenshotOutcome :=
  if capture_fails then
    { attempted := true, filename := none, write_failed := false,
      logged_error := false, logged_success := false, freed := true }
  else
    let fname := if png_ok then "screenshot_" ++ toString ticks ++ ".png"
                 else "screenshot_" ++ toString ticks ++ ".tga"
    { attempted := true, filename := some fname, write_failed := write_fails,
      logged_error := write_fails, logged_success := !write_fails, freed := true }

/-- External inputs consumed by one `engine_loop` iteration: the pending SDL
event queue, the elapsed wall-clock delta, the game state's running predicate
and dynamic tick period, and the video backend's screenshot behaviour. -/
structure IterInput where
  events : List Event
  dt : Nat
  game_running : Bool
  dyn_period : Nat
  png_ok : Bool
  capture_fails : Bool
  write_fails : Bool
  ticks : Nat
deriving DecidableEq

/-- Observable effects of one `engine_loop` iteration. -/
structure IterEffects where
  stopped : Bool
  dispatches : List (Option Handler)
  hide_fired : Bool
  advanced : Nat
  static_ticks : Nat
  dynamic_ticks : Nat
  audio_rendered : Bool
  rendered : Bool
  screenshot : Option ScreenshotOutcome
  delayed : Bool
deriving DecidableEq

/-- Effects of an iteration that returned at the top (run flag down or game
state finished, lines 129-132). -/
def stopped_effects : IterEffects :=
  { stopped := true, dispatches := [], hide_fired := false, advanced := 0,
    static_ticks := 0, dynamic_ticks := 0, audio_rendered := false,
    rendered := false, screenshot := none, delayed := false }

/-- One iteration of `engine_loop` (lines 128-306).  Early return when the run
flag is down or the game state reports finished; otherwise: drain events,
run the mouse-hide countdown, advance the accumulators (debugger-aware),
drain the static (10 ms) and dynamic (`dyn_period`) accumulators, render
audio unless debugging, and either render (servicing a pending screenshot
request) or idle-wait when screen updates are disabled.
`game_state_tick_controllers` is an external call with no modelled state. -/
def engine_loop (s : LoopState) (inp : IterInput) : LoopState × IterEffects :=
  if s.run = false ∨ inp.game_running = false then
    (s, stopped_effects)
  else
    let de := drain_events s inp.events
    let mp := mouse_phase de.1 inp.dt
    let aa := advance_accumulators mp.1 inp.dt
    let st := drain_wait 10 aa.1.static_wait
    let s4 := { aa.1 with static_wait := st.1 }
    let dy := drain_wait inp.dyn_period s4.dynamic_wait
    let s5 := { s4 with dynamic_wait := dy.1 }
    let shot :=
      if s5.enable_screen_updates = true ∧ s5.take_screenshot = true then
        some (service_screenshot inp.png_ok inp.capture_fails inp.write_fails inp.ticks)
      else none
    let s6 :=
      if s5.enable_screen_updates = true ∧ s5.take_screenshot = true then
        { s5 with take_screenshot := false }
      else s5
    (s6,
     { stopped := false, dispatches := de.2, hide_fired := mp.2, advanced := aa.2,
       static_ticks := st.2, dynamic_ticks := dy.2,
       audio_rendered := !s5.visual_debugger,
       rendered := s5.enable_screen_updates,
       screenshot := shot,
       delayed := !s5.enable_screen_updates })

/-- Repeated invocation of `engine_loop`, one `IterInput` per iteration,
collecting the per-iteration effects (the `while(run && ...)` driver of
`engine_run`, with the host supplying each iteration's inputs). -/
def run_loop (s : LoopState) : List IterInput → LoopState × List IterEffects
  | [] => (s, [])
  | i :: is =>
    let p := engine_loop s i
    let q := run_loop p.1 is
    (q.1, p.2 :: q.2)

/-- The SIGINT handler (lines 31-33): clears the run flag. -/
def exit_handler (s : LoopState) : LoopState := { s with run := false }

/-- The seven subsystems initialized by `engine_init`, in source order:
video (rendering), audio, sounds loader (resources), languages
(localization), fonts, alternate palettes, console. -/
inductive Subsystem
  | video | audio | sounds | lang | fonts | altpals | console
deriving DecidableEq

/-- Fixed initialization order of `engine_init` (lines 48-81). -/
def init_order : List Subsystem :=
  [Subsystem.video, Subsystem.audio, Subsystem.sounds, Subsystem.lang,
   Subsystem.fonts, Subsystem.altpals, Subsystem.console]

/-- INFO log emitted by the sink-fallback block (lines 51-59). -/
inductive AudioLog
  | fallback (fromSink toSink : String)
  | disabled (fromSink : String)
deriving DecidableEq

/-- Results of the external subsystem calls consumed by `engine_init`
(`true` = the C call returned success).  `audio_ok` is the result of
`audio_init` as a function of the sink it is handed (possibly none). -/
structure Externals where
  video_ok : Bool
  sink_available : Bool
  first_sink : Option String
  audio_ok : Option String → Bool
  sounds_ok : Bool
  lang_ok : Bool
  fonts_ok : Bool
  altpals_ok : Bool
  console_ok : Bool
  configured_sink : String

/-- Sink chosen by the fallback block (lines 51-59): the configured sink when
available, otherwise the first available sink (possibly none). -/
def resolved_sink (ex : Externals) : Option String :=
  if ex.sink_available = true then some ex.configured_sink else ex.first_sink

/-- Log emitted by the fallback block: nothing when the configured sink was
available, otherwise a fallback or disabled message. -/
def sink_log (ex : Externals) : Option AudioLog :=
  if ex.sink_available = true then none
  else
    match ex.first_sink with
    | none => some (AudioLog.disabled ex.configured_sink)
    | some s => some (AudioLog.fallback ex.configured_sink s)

/-- Outcome of `engine_init`: the return value, the run flag afterwards, the
`init()` calls attempted (in order), the `close()` calls performed by the
goto chain (in order), and the audio sink resolution. -/
structure InitResult where
  success : Bool
  run : Bool
  inits : List Subsystem
  closes : List Subsystem
  resolved : Option String
  audio_log : Option AudioLog
deriving DecidableEq

/-- The `engine_init` sequence (lines 35-110) for the desktop build: video,
sink fallback, audio, sounds loader, languages, fonts, alternate palettes,
console, in that order; the first failing `init` jumps into the goto chain,
which closes exactly the subsystems already initialized, in reverse order,
and returns 1 leaving the run flag untouched; full success sets the run
flag.  Each branch's `closes` list transcribes the fallthrough of the
corresponding `exit_k` label. -/
def engine_init (ex : Externals) (run0 : Bool) : InitResult :=
  if ex.video_ok = false then
    { success := false, run := run0, inits := [Subsystem.video], closes := [],
      resolved := none, audio_log := none }
  else if ex.audio_ok (resolved_sink ex) = false then
    { success := false, run := run0,
      inits := [Subsystem.video, Subsystem.audio],
      closes := [Subsystem.video],
      resolved := resolved_sink ex, audio_log := sink_log ex }
  else if ex.sounds_ok = false then
    { success := false, run := run0,
      inits := [Subsystem.video, Subsystem.audio, Subsystem.sounds],
      closes := [Subsystem.audio, Subsystem.video],
      resolved := resolved_sink ex, audio_log := sink_log ex }
  else if ex.lang_ok = false then
    { success := false, run := run0,
      inits := [Subsystem.video, Subsystem.audio, Subsystem.sounds, Subsystem.lang],
      closes := [Subsystem.sounds, Subsystem.audio, Subsystem.video],
      resolved := resolved_sink ex, audio_log := sink_log ex }
  else if ex.fonts_ok = false then
    { success := false, run := run0,
      inits := [Subsystem.video, Subsystem.audio, Subsystem.sounds, Subsystem.lang,
                Subsystem.fonts],
      closes := [Subsystem.lang, Subsystem.sounds, Subsystem.audio, Subsystem.video],
      resolved := resolved_sink ex, audio_log := sink_log ex }
  else if ex.altpals_ok = false then
    { success := false, run := run0,
      inits := [Subsystem.video, Subsystem.audio, Subsystem.sounds, Subsystem.lang,
                Subsystem.fonts, Subsystem.altpals],
      closes := [Subsystem.fonts, Subsystem.lang, Subsystem.sounds, Subsystem.audio,
                 Subsystem.video],
      resolved := resolved_sink ex, audio_log := sink_log ex }
  else if ex.console_ok = false then
    { success := false, run := run0,
      inits := init_order,
      closes := [Subsystem.altpals, Subsystem.fonts, Subsystem.lang, Subsystem.sounds,
                 Subsystem.audio, Subsystem.video],
      resolved := resolved_sink ex, audio_log := sink_log ex }
  else
    { success := true, run := true, inits := init_order, closes := [],
      resolved := resolved_sink ex, audio_log := sink_log ex }

/-- Index of the first subsystem whose `init` fails (position in
`init_order`), or `none` when all succeed. -/
def first_failure (ex : Externals) : Option Nat :=
  if ex.video_ok = false then some 0
  else if ex.audio_ok (resolved_sink ex) = false then some 1
  else if ex.sounds_ok = false then some 2
  else if ex.lang_ok = false then some 3
  else if ex.fonts_ok = false then some 4
  else if ex.altpals_ok = false then some 5
  else if ex.console_ok = false then some 6
  else none

/-- Test whether an event is a keydown of the given key. -/
def is_keydown_of (k : Key) (e : Event) : Bool :=
  match e with
  | Event.keydown sym _ => decide (sym = k)
  | _ => false

/-- Test whether a keydown of the given key occurs in an event queue. -/
def has_keydown (k : Key) (es : List Event) : Bool :=
  es.any (is_keydown_of k)

/-- Test whether an event is `SDL_QUIT`. -/
def is_quit (e : Event) : Bool :=
  match e with
  | Event.quit => true
  | _ => false

/-- Test whether an event queue holds an `SDL_QUIT` event. -/
def has_quit (es : List Event) : Bool := es.any is_quit

/-- Test whether an event is a mouse-motion event. -/
def is_mousemotion (e : Event) : Bool :=
  match e with
  | Event.mousemotion => true
  | _ => false

/-- Test whether an event queue holds a mouse-motion event. -/
def has_mousemotion (es : List Event) : Bool :=
  es.any is_mousemotion

/-- Test whether an event is a window event. -/
def is_window_event (e : Event) : Bool :=
  match e with
  | Event.window _ => true
  | _ => false

/-- Test whether an event queue holds any window event. -/
def has_window_event (es : List Event) : Bool :=
  es.any is_window_event

/-- The condition under which an event is consumed by the console open/close
toggling (lines 192-205) and therefore dispatched to neither handler: with the
console open, a keydown of grave scancode, backquote, tab or escape; with it
closed, a keydown of tab, backquote or grave scancode. -/
def is_console_toggle (conOpen : Bool) (e : Event) : Bool :=
  match e with
  | Event.keydown sym grave =>
    decide (conOpen = true ∧
      (grave = true ∨ sym = Key.backquote ∨ sym = Key.tab ∨ sym = Key.escape)) ||
    decide (sym = Key.tab ∨ sym = Key.backquote ∨ grave = true)
  | _ => false

/-- Modelled from the spec: result of `audio_init` (src/audio/audio.c is not
among the sources).  Per the spec, an available sink initializes successfully,
and when no sink could be resolved audio is disabled for the run rather than
treated as a fatal error, so initialization still succeeds. -/
def audio_init_spec (available : List String) : Option String → Bool
  | none => true
  | some s => available.contains s

/-- Modelled from the spec: `audio_get_first_sink_name` (src/audio/audio.c is
not among the sources) — the first available sink, or none. -/
def audio_first_sink_spec (available : List String) : Option String :=
  available.head?

/-- Modelled from the spec: `audio_is_sink_available` (src/audio/audio.c is
not among the sources) — whether the named sink is among the available ones. -/
def audio_sink_available_spec (available : List String) (s : String) : Bool :=
  available.contains s

/-- Startup scenario in which every non-audio subsystem succeeds and the audio
backend exposes the given list of available sinks, with `cfg` the configured
sink from settings. -/
def audio_scenario (available : List String) (cfg : String) : Externals :=
  { video_ok := true,
    sink_available := audio_sink_available_spec available cfg,
    first_sink := audio_first_sink_spec available,
    audio_ok := audio_init_spec available,
    sounds_ok := true, lang_ok := true, fonts_ok := true, altpals_ok := true,
    console_ok := true, configured_sink := cfg }

/-- Wall-clock milliseconds consumed by the first `k` iterations. -/
def dts_before (inputs : List IterInput) (k : Nat) : Nat :=
  ((inputs.take k).map (fun i => i.dt)).sum

/-- Total wall-clock milliseconds of a sequence of iterations. -/
def total_dts (inputs : List IterInput) : Nat :=
  (inputs.map (fun i => i.dt)).sum

/-- Total amount added to each accumulator over a run. -/
def total_advanced (effs : List IterEffects) : Nat :=
  (effs.map (fun e => e.advanced)).sum

/-- A fresh loop state: run flag up, screen updates enabled, console closed,
debugger off, mouse countdown at its initial 1000 ms, empty accumulators
(the state produced by a successful `engine_init` plus `engine_run`'s
context setup, lines 84 and 311-320). -/
def fresh_state : LoopState :=
  { run := true, take_screenshot := false, enable_screen_updates := true,
    console_open := false, visual_debugger := false, debugger_proceed := false,
    debugger_render := false, mouse_visible_ticks := 1000,
    static_wait := 0, dynamic_wait := 0, cursor_shown := true }

/-- An uneventful iteration input: no pending events, no elapsed time, game
running, 16 ms dynamic period, healthy screenshot path. -/
def quiet_input : IterInput :=
  { events := [], dt := 0, game_running := true, dyn_period := 16,
    png_ok := true, capture_fails := false, write_fails := false, ticks := 0 }

/-- Loop state after the event-drain phase of one iteration. -/
def loop_events (s : LoopState) (inp : IterInput) : LoopState :=
  (drain_events s inp.events).1

/-- Loop state and hide flag after the mouse-hide phase of one iteration. -/
def loop_mouse (s : LoopState) (inp : IterInput) : LoopState × Bool :=
  mouse_phase (loop_events s inp) inp.dt

/-- Loop state and advanced amount after the accumulator-advancement phase of
one iteration. -/
def loop_advance (s : LoopState) (inp : IterInput) : LoopState × Nat :=
  advance_accumulators (loop_mouse s inp).1 inp.dt

/-- A loop state in visual-debugger mode (as after an F5 toggle). -/
def c4_state : LoopState := { fresh_state with visual_debugger := true }

/-- Three debugger-mode iterations: single-step requested in the first and
third, none in the second. -/
def c4_inputs : List IterInput :=
  [{ quiet_input with events := [Event.keydown Key.space false] },
   quiet_input,
   { quiet_input with events := [Event.keydown Key.space false] }]

/-- Two quiet 600 ms iterations (their deltas sum to 1200 ms ≥ 1000 ms). -/
def c7_inputs : List IterInput :=
  [{ quiet_input with dt := 600 }, { quiet_input with dt := 600 }]

/-- A loop state with a pending screenshot request while screen updates are
disabled (window minimized/hidden). -/
def c10_state : LoopState :=
  { fresh_state with take_screenshot := true, enable_screen_updates := false }

/-- An iteration whose only event is the window being shown again, re-enabling
screen updates. -/
def c10_enable_input : IterInput :=
  { quiet_input with events := [Event.window WinEv.shown] }

/-- A startup scenario for exercising the rollback path: video, audio, sounds
and languages succeed, the font cache fails. -/
def c2_externals : Externals :=
  { video_ok := true, sink_available := true, first_sink := none,
    audio_ok := fun _ => true, sounds_ok := true, lang_ok := true,
    fonts_ok := false, altpals_ok := true, console_ok := true,
    configured_sink := "pulse" }

/-! Lemmas about the drain loops. -/

theorem drain_go_spec (p : Nat) (hp : 0 < p) :
    ∀ fuel w, w ≤ fuel →
      (drain_go p fuel w).1 + (drain_go p fuel w).2 * p = w ∧
      (drain_go p fuel w).1 ≤ p ∧
      (0 < w → 0 < (drain_go p fuel w).1) ∧
      (drain_go p fuel w).2 = (w - 1) / p := by
  intro fuel
  induction fuel with
  | zero =>
    intro w hw
    have hw0 : w = 0 := by omega
    subst hw0
    simp [drain_go]
  | succ fuel ih =>
    intro w hw
    by_cases h : p < w ∧ 0 < p
    · have hw' : w - p ≤ fuel := by omega
      obtain ⟨ih1, ih2, ih3, ih4⟩ := ih (w - p) hw'
      have hmul : ((drain_go p fuel (w - p)).2 + 1) * p = (drain_go p fuel (w - p)).2 * p + p := by
        ring
      have hk : w - 1 = (w - p - 1) + p := by omega
      refine ⟨?_, ?_, ?_, ?_⟩
      · simp only [drain_go, if_pos h]
        omega
      · simp only [drain_go, if_pos h]
        exact ih2
      · intro _
        simp only [drain_go, if_pos h]
        exact ih3 (by omega)
      · simp only [drain_go, if_pos h]
        rw [ih4, ← Nat.add_div_right (w - p - 1) hp, ← hk]
    · have hwp : w ≤ p := by omega
      refine ⟨?_, ?_, ?_, ?_⟩ <;> simp only [drain_go, if_neg h]
      · omega
      · exact hwp
      · intro hw0
        exact hw0
      · rw [Nat.div_eq_of_lt (by omega)]

theorem drain_wait_spec (p w : Nat) (hp : 0 < p) :
    (drain_wait p w).1 + (drain_wait p w).2 * p = w ∧
    (drain_wait p w).1 ≤ p ∧
    (0 < w → 0 < (drain_wait p w).1) ∧
    (drain_wait p w).2 = (w - 1) / p :=
  drain_go_spec p hp w w le_rfl

theorem drain_go_fuel_irrel (p : Nat) :
    ∀ f1 f2 w, w ≤ f1 → w ≤ f2 → drain_go p f1 w = drain_go p f2 w := by
  intro f1
  induction f1 with
  | zero =>
    intro f2 w h1 _
    have hw0 : w = 0 := by omega
    subst hw0
    cases f2 with
    | zero => rfl
    | succ f2 => simp [drain_go]
  | succ f ih =>
    intro f2 w h1 h2
    cases f2 with
    | zero =>
      have hw0 : w = 0 := by omega
      subst hw0
      simp [drain_go]
    | succ f2 =>
      by_cases h : p < w ∧ 0 < p
      · simp only [drain_go, if_pos h]
        rw [ih f2 (w - p) (by omega) (by omega)]
      · simp only [drain_go, if_neg h]

/-- Faithfulness of the fuel encoding: `drain_wait` satisfies exactly the
recurrence of the source loop `while (wait > p) { ticks; wait -= p }` for any
positive period. -/
theorem drain_wait_unfold (p w : Nat) (hp : 0 < p) :
    drain_wait p w =
      if p < w then ((drain_wait p (w - p)).1, (drain_wait p (w - p)).2 + 1)
      else (w, 0) := by
  cases w with
  | zero => simp [drain_wait, drain_go]
  | succ w =>
    by_cases h : p < w + 1
    · rw [if_pos h]
      show drain_go p (w + 1) (w + 1) = _
      simp only [drain_go, if_pos (show p < w + 1 ∧ 0 < p from ⟨h, hp⟩)]
      rw [drain_go_fuel_irrel p w (w + 1 - p) (w + 1 - p) (by omega) le_rfl]
      rfl
    · rw [if_neg h]
      show drain_go p (w + 1) (w + 1) = _
      simp only [drain_go, if_neg (show ¬(p < w + 1 ∧ 0 < p) from fun hc => h hc.1)]

/-! Field lemmas for the event-processing phase. -/

theorem console_dispatch_state (s : LoopState) (e : Event) :
    (console_dispatch s e).1 = { s with console_open := (console_dispatch s e).1.console_open } := by
  cases e <;> simp only [console_dispatch] <;> split_ifs <;> rfl

theorem console_dispatch_run (s : LoopState) (e : Event) :
    (console_dispatch s e).1.run = s.run := by
  rw [console_dispatch_state s e]

theorem console_dispatch_take (s : LoopState) (e : Event) :
    (console_dispatch s e).1.take_screenshot = s.take_screenshot := by
  rw [console_dispatch_state s e]

theorem console_dispatch_enable (s : LoopState) (e : Event) :
    (console_dispatch s e).1.enable_screen_updates = s.enable_screen_updates := by
  rw [console_dispatch_state s e]

theorem console_dispatch_vd (s : LoopState) (e : Event) :
    (console_dispatch s e).1.visual_debugger = s.visual_debugger := by
  rw [console_dispatch_state s e]

theorem console_dispatch_proceed (s : LoopState) (e : Event) :
    (console_dispatch s e).1.debugger_proceed = s.debugger_proceed := by
  rw [console_dispatch_state s e]

theorem console_dispatch_mvt (s : LoopState) (e : Event) :
    (console_dispatch s e).1.mouse_visible_ticks = s.mouse_visible_ticks := by
  rw [console_dispatch_state s e]

theorem console_dispatch_static (s : LoopState) (e : Event) :
    (console_dispatch s e).1.static_wait = s.static_wait := by
  rw [console_dispatch_state s e]

theorem console_dispatch_dynamic (s : LoopState) (e : Event) :
    (console_dispatch s e).1.dynamic_wait = s.dynamic_wait := by
  rw [console_dispatch_state s e]

theorem apply_keydown_fields (s : LoopState) (sym : Key) :
    (apply_keydown s sym).run = s.run ∧
    (apply_keydown s sym).enable_screen_updates = s.enable_screen_updates ∧
    (apply_keydown s sym).console_open = s.console_open ∧
    (apply_keydown s sym).mouse_visible_ticks = s.mouse_visible_ticks ∧
    (apply_keydown s sym).static_wait = s.static_wait ∧
    (apply_keydown s sym).dynamic_wait = s.dynamic_wait ∧
    (apply_keydown s sym).take_screenshot = (s.take_screenshot || decide (sym = Key.f1)) ∧
    (apply_keydown s sym).debugger_proceed = (s.debugger_proceed || decide (sym = Key.space)) ∧
    (sym ≠ Key.f5 → (apply_keydown s sym).visual_debugger = s.visual_debugger) := by
  unfold apply_keydown
  split_ifs <;> simp_all

/-- Effect of one polled event on the loop state: it never touches the
accumulators; it clears the run flag exactly on `SDL_QUIT`; it raises the
screenshot request exactly on F1 and the single-step request exactly on
SPACE; and unless the event is an F5 keydown / mouse motion / window event it
leaves the debugger flag / mouse countdown / screen-updates flag alone. -/
theorem hse_state_fields (s : LoopState) (e : Event) :
    (handle_sdl_event s e).1.static_wait = s.static_wait ∧
    (handle_sdl_event s e).1.dynamic_wait = s.dynamic_wait ∧
    (handle_sdl_event s e).1.run = (s.run && !is_quit e) ∧
    (handle_sdl_event s e).1.take_screenshot = (s.take_screenshot || is_keydown_of Key.f1 e) ∧
    (handle_sdl_event s e).1.debugger_proceed = (s.debugger_proceed || is_keydown_of Key.space e) ∧
    (is_keydown_of Key.f5 e = false → (handle_sdl_event s e).1.visual_debugger = s.visual_debugger) ∧
    (is_mousemotion e = false → (handle_sdl_event s e).1.mouse_visible_ticks = s.mouse_visible_ticks) ∧
    (is_window_event e = false → (handle_sdl_event s e).1.enable_screen_updates = s.enable_screen_updates) := by
  unfold handle_sdl_event
  rw [console_dispatch_static, console_dispatch_dynamic, console_dispatch_run,
      console_dispatch_take, console_dispatch_proceed, console_dispatch_vd,
      console_dispatch_mvt, console_dispatch_enable]
  cases e with
  | quit => simp [apply_switch, is_quit, is_keydown_of, is_mousemotion, is_window_event]
  | keydown sym g =>
    obtain ⟨h1, h2, h3, h4, h5, h6, h7, h8, h9⟩ := apply_keydown_fields s sym
    refine ⟨h5, h6, ?_, ?_, ?_, ?_, fun _ => h4, fun _ => h2⟩
    · simp [apply_switch, is_quit, h1]
    · simp [apply_switch, is_keydown_of, h7]
    · simp [apply_switch, is_keydown_of, h8]
    · intro hd
      exact h9 (by simpa [is_keydown_of] using hd)
  | mousemotion => simp [apply_switch, is_quit, is_keydown_of, is_mousemotion, is_window_event]
  | window w =>
    cases w <;> simp [apply_switch, is_quit, is_keydown_of, is_mousemotion, is_window_event]
  | otherEvent => simp [apply_switch, is_quit, is_keydown_of, is_mousemotion, is_window_event]

/-- Effect of the full event drain on the loop state, lifted from
`hse_state_fields` over the whole queue. -/
theorem de_state_fields (es : List Event) : ∀ s : LoopState,
    (drain_events s es).1.static_wait = s.static_wait ∧
    (drain_events s es).1.dynamic_wait = s.dynamic_wait ∧
    (drain_events s es).1.run = (s.run && !has_quit es) ∧
    (drain_events s es).1.take_screenshot = (s.take_screenshot || has_keydown Key.f1 es) ∧
    (drain_events s es).1.debugger_proceed = (s.debugger_proceed || has_keydown Key.space es) ∧
    (has_keydown Key.f5 es = false → (drain_events s es).1.visual_debugger = s.visual_debugger) ∧
    (has_mousemotion es = false → (drain_events s es).1.mouse_visible_ticks = s.mouse_visible_ticks) ∧
    (has_window_event es = false → (drain_events s es).1.enable_screen_updates = s.enable_screen_updates) := by
  induction es with
  | nil =>
    intro s
    simp [drain_events, has_quit, has_keydown, has_mousemotion, has_window_event]
  | cons e rest ih =>
    intro s
    obtain ⟨hs, hd, hr, ht, hp, hv, hm, he⟩ := hse_state_fields s e
    obtain ⟨is1, is2, is3, is4, is5, is6, is7, is8⟩ := ih (handle_sdl_event s e).1
    have hq : has_quit (e :: rest) = (is_quit e || has_quit rest) := by
      simp [has_quit]
    have hk1 : has_keydown Key.f1 (e :: rest) = (is_keydown_of Key.f1 e || has_keydown Key.f1 rest) := by
      simp [has_keydown]
    have hksp : has_keydown Key.space (e :: rest) = (is_keydown_of Key.space e || has_keydown Key.space rest) := by
      simp [has_keydown]
    have hk5 : has_keydown Key.f5 (e :: rest) = (is_keydown_of Key.f5 e || has_keydown Key.f5 rest) := by
      simp [has_keydown]
    have hmm : has_mousemotion (e :: rest) = (is_mousemotion e || has_mousemotion rest) := by
      simp [has_mousemotion]
    have hwe : has_window_event (e :: rest) = (is_window_event e || has_window_event rest) := by
      simp [has_window_event]
    have hstep : drain_events s (e :: rest) =
        ((drain_events (handle_sdl_event s e).1 rest).1,
         (handle_sdl_event s e).2 :: (drain_events (handle_sdl_event s e).1 rest).2) := rfl
    rw [hstep]
    refine ⟨?_, ?_, ?_, ?_, ?_, ?_, ?_, ?_⟩
    · rw [is1, hs]
    · rw [is2, hd]
    · rw [is3, hr, hq]
      cases s.run <;> cases is_quit e <;> cases has_quit rest <;> rfl
    · rw [is4, ht, hk1]
      cases s.take_screenshot <;> cases is_keydown_of Key.f1 e <;> cases has_keydown Key.f1 rest <;> rfl
    · rw [is5, hp, hksp]
      cases s.debugger_proceed <;> cases is_keydown_of Key.space e <;> cases has_keydown Key.space rest <;> rfl
    · intro h5
      rw [hk5] at h5
      obtain ⟨h5a, h5b⟩ := Bool.or_eq_false_iff.mp h5
      rw [is6 h5b, hv h5a]
    · intro hmot
      rw [hmm] at hmot
      obtain ⟨ha, hb⟩ := Bool.or_eq_false_iff.mp hmot
      rw [is7 hb, hm ha]
    · intro hwin
      rw [hwe] at hwin
      obtain ⟨ha, hb⟩ := Bool.or_eq_false_iff.mp hwin
      rw [is8 hb, he ha]

/-- Effect of the accumulator-advancement phase: only the two accumulators and
the single-step flag can change; both accumulators gain the same returned
amount, which is `dt` outside the debugger and, inside it, 20 exactly when a
step was pending (which is then consumed). -/
theorem aa_fields (s : LoopState) (dt : Nat) :
    (advance_accumulators s dt).1.run = s.run ∧
    (advance_accumulators s dt).1.take_screenshot = s.take_screenshot ∧
    (advance_accumulators s dt).1.enable_screen_updates = s.enable_screen_updates ∧
    (advance_accumulators s dt).1.console_open = s.console_open ∧
    (advance_accumulators s dt).1.visual_debugger = s.visual_debugger ∧
    (advance_accumulators s dt).1.mouse_visible_ticks = s.mouse_visible_ticks ∧
    (advance_accumulators s dt).1.cursor_shown = s.cursor_shown ∧
    (advance_accumulators s dt).1.static_wait = s.static_wait + (advance_accumulators s dt).2 ∧
    (advance_accumulators s dt).1.dynamic_wait = s.dynamic_wait + (advance_accumulators s dt).2 ∧
    (s.visual_debugger = false → (advance_accumulators s dt).2 = dt) ∧
    (s.visual_debugger = false →
      (advance_accumulators s dt).1.debugger_proceed = s.debugger_proceed) ∧
    (s.visual_debugger = true →
      (advance_accumulators s dt).1.debugger_proceed = false ∧
      (advance_accumulators s dt).2 = (if s.debugger_proceed = true then 20 else 0)) := by
  unfold advance_accumulators
  split_ifs <;> simp_all

/-- Effect of the mouse-hide phase on the loop state: only the countdown and
the cursor-shown flag change, exactly as dictated by `mouse_hide_step`. -/
theorem mouse_phase_fields (s : LoopState) (dt : Nat) :
    (mouse_phase s dt).1.run = s.run ∧
    (mouse_phase s dt).1.take_screenshot = s.take_screenshot ∧
    (mouse_phase s dt).1.enable_screen_updates = s.enable_screen_updates ∧
    (mouse_phase s dt).1.console_open = s.console_open ∧
    (mouse_phase s dt).1.visual_debugger = s.visual_debugger ∧
    (mouse_phase s dt).1.debugger_proceed = s.debugger_proceed ∧
    (mouse_phase s dt).1.static_wait = s.static_wait ∧
    (mouse_phase s dt).1.dynamic_wait = s.dynamic_wait ∧
    (mouse_phase s dt).1.mouse_visible_ticks = (mouse_hide_step s.mouse_visible_ticks (dt : Int)).1 ∧
    (mouse_phase s dt).2 = (mouse_hide_step s.mouse_visible_ticks (dt : Int)).2 :=
  ⟨rfl, rfl, rfl, rfl, rfl, rfl, rfl, rfl, rfl, rfl⟩

/-- Fields of the state after the first three phases (events, mouse,
advancement) of one iteration, relative to the state after the event drain. -/
theorem loop_advance_fields (s : LoopState) (inp : IterInput) :
    (loop_advance s inp).1.run = (drain_events s inp.events).1.run ∧
    (loop_advance s inp).1.take_screenshot = (drain_events s inp.events).1.take_screenshot ∧
    (loop_advance s inp).1.enable_screen_updates = (drain_events s inp.events).1.enable_screen_updates ∧
    (loop_advance s inp).1.console_open = (drain_events s inp.events).1.console_open ∧
    (loop_advance s inp).1.visual_debugger = (drain_events s inp.events).1.visual_debugger ∧
    (loop_advance s inp).1.mouse_visible_ticks =
      (mouse_hide_step (drain_events s inp.events).1.mouse_visible_ticks (inp.dt : Int)).1 ∧
    (loop_advance s inp).1.static_wait =
      (drain_events s inp.events).1.static_wait + (loop_advance s inp).2 ∧
    (loop_advance s inp).1.dynamic_wait =
      (drain_events s inp.events).1.dynamic_wait + (loop_advance s inp).2 ∧
    ((drain_events s inp.events).1.visual_debugger = false → (loop_advance s inp).2 = inp.dt) ∧
    ((drain_events s inp.events).1.visual_debugger = false →
      (loop_advance s inp).1.debugger_proceed = (drain_events s inp.events).1.debugger_proceed) ∧
    ((drain_events s inp.events).1.visual_debugger = true →
      (loop_advance s inp).1.debugger_proceed = false ∧
      (loop_advance s inp).2 =
        (if (drain_events s inp.events).1.debugger_proceed = true then 20 else 0)) := by
  have hm := mouse_phase_fields (drain_events s inp.events).1 inp.dt
  have ha := aa_fields (mouse_phase (drain_events s inp.events).1 inp.dt).1 inp.dt
  obtain ⟨m1, m2, m3, m4, m5, m6, m7, m8, m9, m10⟩ := hm
  obtain ⟨a1, a2, a3, a4, a5, a6, a7, a8, a9, a10, a11, a12⟩ := ha
  have hla : loop_advance s inp =
      advance_accumulators (mouse_phase (drain_events s inp.events).1 inp.dt).1 inp.dt := rfl
  rw [hla]
  refine ⟨?_, ?_, ?_, ?_, ?_, ?_, ?_, ?_, ?_, ?_, ?_⟩
  · rw [a1, m1]
  · rw [a2, m2]
  · rw [a3, m3]
  · rw [a4, m4]
  · rw [a5, m5]
  · rw [a6, m9]
  · rw [a8, m7]
  · rw [a9, m8]
  · intro h
    exact a10 (by rw [m5]; exact h)
  · intro h
    rw [a11 (by rw [m5]; exact h), m6]
  · intro h
    obtain ⟨hp1, hp2⟩ := a12 (by rw [m5]; exact h)
    exact ⟨hp1, by rw [hp2, m6]⟩

/-- Characterization of one non-stopped iteration: each field of the result
state and of the effects, in terms of the phase functions. -/
theorem el_char (s : LoopState) (inp : IterInput)
    (hr : s.run = true) (hg : inp.game_running = true) :
    (engine_loop s inp).2.stopped = false ∧
    (engine_loop s inp).2.dispatches = (drain_events s inp.events).2 ∧
    (engine_loop s inp).2.hide_fired = (loop_mouse s inp).2 ∧
    (engine_loop s inp).2.advanced = (loop_advance s inp).2 ∧
    (engine_loop s inp).2.static_ticks = (drain_wait 10 ((loop_advance s inp).1.static_wait)).2 ∧
    (engine_loop s inp).2.dynamic_ticks =
      (drain_wait inp.dyn_period ((loop_advance s inp).1.dynamic_wait)).2 ∧
    (engine_loop s inp).1.static_wait = (drain_wait 10 ((loop_advance s inp).1.static_wait)).1 ∧
    (engine_loop s inp).1.dynamic_wait =
      (drain_wait inp.dyn_period ((loop_advance s inp).1.dynamic_wait)).1 ∧
    (engine_loop s inp).1.run = (loop_advance s inp).1.run ∧
    (engine_loop s inp).1.visual_debugger = (loop_advance s inp).1.visual_debugger ∧
    (engine_loop s inp).1.debugger_proceed = (loop_advance s inp).1.debugger_proceed ∧
    (engine_loop s inp).1.mouse_visible_ticks = (loop_advance s inp).1.mouse_visible_ticks ∧
    (engine_loop s inp).1.enable_screen_updates = (loop_advance s inp).1.enable_screen_updates ∧
    (engine_loop s inp).1.console_open = (loop_advance s inp).1.console_open ∧
    (engine_loop s inp).2.rendered = (loop_advance s inp).1.enable_screen_updates ∧
    (engine_loop s inp).2.screenshot =
      (if (loop_advance s inp).1.enable_screen_updates = true ∧
          (loop_advance s inp).1.take_screenshot = true
       then some (service_screenshot inp.png_ok inp.capture_fails inp.write_fails inp.ticks)
       else none) ∧
    (engine_loop s inp).1.take_screenshot =
      (if (loop_advance s inp).1.enable_screen_updates = true ∧
          (loop_advance s inp).1.take_screenshot = true
       then false else (loop_advance s inp).1.take_screenshot) := by
  have hcond : ¬(s.run = false ∨ inp.game_running = false) := by
    simp [hr, hg]
  simp only [engine_loop, if_neg hcond, loop_advance, loop_mouse, loop_events]
  split_ifs <;> simp

/-- C3: with static period 10 ms and dynamic period 16 ms, a single iteration
with a 37 ms delta from empty accumulators performs exactly 3 static ticks
leaving a 7 ms static residual and exactly 2 dynamic ticks leaving a 5 ms
dynamic residual. -/
theorem C3_scenario_37ms :
    (engine_loop fresh_state { quiet_input with dt := 37 }).2.static_ticks = 3 ∧
    (engine_loop fresh_state { quiet_input with dt := 37 }).1.static_wait = 7 ∧
    (engine_loop fresh_state { quiet_input with dt := 37 }).2.dynamic_ticks = 2 ∧
    (engine_loop fresh_state { quiet_input with dt := 37 }).1.dynamic_wait = 5 := by
  decide

/-- C5 (amended): an event drained by the scheduler is dispatched to neither
handler when it is a console-toggle key event (which is consumed by opening or
closing the console); every other event is dispatched to exactly one of the
console or game-state handlers, chosen solely by whether the console overlay
is open at the time of that event. -/
theorem C5_dispatch_amended (s : LoopState) (e : Event) :
    (handle_sdl_event s e).2 =
      (if is_console_toggle s.console_open e then none
       else some (if s.console_open = true then Handler.console else Handler.game)) := by
  unfold handle_sdl_event
  have hco : (apply_switch s e).console_open = s.console_open := by
    cases e with
    | keydown sym g => exact (apply_keydown_fields s sym).2.2.1
    | window w => cases w <;> rfl
    | quit => rfl
    | mousemotion => rfl
    | otherEvent => rfl
  cases e with
  | keydown sym g =>
    simp only [console_dispatch, is_console_toggle, hco]
    split_ifs <;> simp_all
  | quit => simp only [console_dispatch, is_console_toggle, hco]; split_ifs <;> simp_all
  | mousemotion => simp only [console_dispatch, is_console_toggle, hco]; split_ifs <;> simp_all
  | window w => simp only [console_dispatch, is_console_toggle, hco]; split_ifs <;> simp_all
  | otherEvent => simp only [console_dispatch, is_console_toggle, hco]; split_ifs <;> simp_all

/-- C5 counterexample: with the console closed, a TAB keydown opens the
console and is dispatched to neither the console handler nor the game-state
handler, refuting "every drained event is dispatched to exactly one of the
two handlers". -/
theorem C5_counterexample :
    (handle_sdl_event fresh_state (Event.keydown Key.tab false)).2 = none ∧
    (handle_sdl_event fresh_state (Event.keydown Key.tab false)).1.console_open = true := by
  decide

/-- C1 (amended): after one non-debugger iteration, each accumulator is at
most (not necessarily strictly below) its period, and with accumulated time
`w` the number of tick invocations is `(w - 1) / period` — that is,
`floor(w/period)` except at exact positive multiples of the period, where it
is one less — with `residual + ticks * period = w`. -/
theorem C1_drain_amended (s : LoopState) (inp : IterInput)
    (hr : s.run = true) (hg : inp.game_running = true)
    (hv : s.visual_debugger = false)
    (hf5 : has_keydown Key.f5 inp.events = false)
    (hp : 0 < inp.dyn_period) :
    (engine_loop s inp).1.static_wait ≤ 10 ∧
    (engine_loop s inp).1.dynamic_wait ≤ inp.dyn_period ∧
    (engine_loop s inp).2.static_ticks = (s.static_wait + inp.dt - 1) / 10 ∧
    (engine_loop s inp).2.dynamic_ticks = (s.dynamic_wait + inp.dt - 1) / inp.dyn_period ∧
    (engine_loop s inp).1.static_wait + (engine_loop s inp).2.static_ticks * 10 =
      s.static_wait + inp.dt ∧
    (engine_loop s inp).1.dynamic_wait + (engine_loop s inp).2.dynamic_ticks * inp.dyn_period =
      s.dynamic_wait + inp.dt := by
  obtain ⟨e1, e2, e3, e4, e5, e6, e7, e8, e9, e10, e11, e12, e13, e14, e15, e16, e17⟩ :=
    el_char s inp hr hg
  obtain ⟨l1, l2, l3, l4, l5, l6, l7, l8, l9, l10, l11⟩ := loop_advance_fields s inp
  obtain ⟨d1, d2, d3, d4, d5, d6, d7, d8⟩ := de_state_fields inp.events s
  have hvd : (drain_events s inp.events).1.visual_debugger = false := by
    rw [d6 hf5, hv]
  have hadv : (loop_advance s inp).2 = inp.dt := l9 hvd
  have hsw : (loop_advance s inp).1.static_wait = s.static_wait + inp.dt := by
    rw [l7, d1, hadv]
  have hdw : (loop_advance s inp).1.dynamic_wait = s.dynamic_wait + inp.dt := by
    rw [l8, d2, hadv]
  obtain ⟨ss1, ss2, ss3, ss4⟩ := drain_wait_spec 10 (s.static_wait + inp.dt) (by omega)
  obtain ⟨dd1, dd2, dd3, dd4⟩ := drain_wait_spec inp.dyn_period (s.dynamic_wait + inp.dt) hp
  refine ⟨?_, ?_, ?_, ?_, ?_, ?_⟩
  · rw [e7, hsw]; exact ss2
  · rw [e8, hdw]; exact dd2
  · rw [e5, hsw]; exact ss4
  · rw [e6, hdw]; exact dd4
  · rw [e7, e5, hsw]; exact ss1
  · rw [e8, e6, hdw]; exact dd1

/-- C1 counterexample: a single 20 ms delta from empty accumulators leaves the
static accumulator exactly equal to the 10 ms period (not strictly below it)
and performs 1 static tick, not `floor(20/10) = 2`, refuting the claimed
strict bound and the floor count. -/
theorem C1_counterexample :
    (engine_loop fresh_state { quiet_input with dt := 20 }).1.static_wait = 10 ∧
    ¬((engine_loop fresh_state { quiet_input with dt := 20 }).1.static_wait < 10) ∧
    (engine_loop fresh_state { quiet_input with dt := 20 }).2.static_ticks = 1 ∧
    (engine_loop fresh_state { quiet_input with dt := 20 }).2.static_ticks ≠ 20 / 10 := by
  decide

/-- C1 witness: the amended drain invariant evaluated on a fresh state with a
single 23 ms delta and a 16 ms dynamic period. -/
theorem C1_witness :
    (engine_loop fresh_state { quiet_input with dt := 23 }).1.static_wait ≤ 10 ∧
    (engine_loop fresh_state { quiet_input with dt := 23 }).1.dynamic_wait ≤ 16 ∧
    (engine_loop fresh_state { quiet_input with dt := 23 }).2.static_ticks = 2 ∧
    (engine_loop fresh_state { quiet_input with dt := 23 }).2.dynamic_ticks = 1 ∧
    (engine_loop fresh_state { quiet_input with dt := 23 }).1.static_wait +
      (engine_loop fresh_state { quiet_input with dt := 23 }).2.static_ticks * 10 = 23 ∧
    (engine_loop fresh_state { quiet_input with dt := 23 }).1.dynamic_wait +
      (engine_loop fresh_state { quiet_input with dt := 23 }).2.dynamic_ticks * 16 = 23 :=
  C1_drain_amended fresh_state { quiet_input with dt := 23 } rfl rfl rfl (by decide) (by decide)

/-- C2: when the subsystem at position `k` of the fixed order (video, audio,
sounds, languages, fonts, altpals, console) is the first to fail,
`engine_init` attempts exactly the inits up to and including position `k`,
closes exactly the already-successful ones in exact reverse order, returns
failure, and leaves the run flag unchanged (false when it started false). -/
theorem C2_rollback (ex : Externals) (run0 : Bool) (k : Nat)
    (h : first_failure ex = some k) :
    (engine_init ex run0).success = false ∧
    (engine_init ex run0).run = run0 ∧
    (engine_init ex run0).inits = init_order.take (k + 1) ∧
    (engine_init ex run0).closes = (init_order.take k).reverse := by
  unfold first_failure at h
  unfold engine_init
  split_ifs at h ⊢ <;>
    try (injection h with h2; subst h2; exact ⟨rfl, rfl, rfl, rfl⟩)

/-- C2 witness: with video, audio, sounds and languages succeeding and the
font cache failing, exactly the first five inits are attempted and exactly
languages, sounds, audio, video are closed, in that order. -/
theorem C2_witness :
    (engine_init c2_externals false).success = false ∧
    (engine_init c2_externals false).run = false ∧
    (engine_init c2_externals false).inits =
      [Subsystem.video, Subsystem.audio, Subsystem.sounds, Subsystem.lang, Subsystem.fonts] ∧
    (engine_init c2_externals false).closes =
      [Subsystem.lang, Subsystem.sounds, Subsystem.audio, Subsystem.video] :=
  C2_rollback c2_externals false 4 (by decide)

/-- C6: when the configured audio sink is not available, startup still
succeeds: with at least one available sink the first one is substituted and a
fallback message is logged, and with no available sink audio is disabled (no
sink resolved, a disabling message logged) — in neither case is it a fatal
error.  Uses the spec-modelled audio backend (`audio_init_spec`). -/
theorem C6_audio_fallback (available : List String) (cfg : String)
    (hcfg : audio_sink_available_spec available cfg = false) :
    (available = [] →
      (engine_init (audio_scenario available cfg) false).success = true ∧
      (engine_init (audio_scenario available cfg) false).run = true ∧
      (engine_init (audio_scenario available cfg) false).resolved = none ∧
      (engine_init (audio_scenario available cfg) false).audio_log =
        some (AudioLog.disabled cfg)) ∧
    (∀ a rest, available = a :: rest →
      (engine_init (audio_scenario available cfg) false).success = true ∧
      (engine_init (audio_scenario available cfg) false).run = true ∧
      (engine_init (audio_scenario available cfg) false).resolved = some a ∧
      (engine_init (audio_scenario available cfg) false).audio_log =
        some (AudioLog.fallback cfg a)) := by
  constructor
  · rintro rfl
    simp [engine_init, audio_scenario, resolved_sink, sink_log,
          audio_first_sink_spec, audio_init_spec, audio_sink_available_spec, hcfg]
  · rintro a rest rfl
    have hmem : ¬(cfg = a ∨ cfg ∈ rest) := by
      simpa [audio_sink_available_spec] using hcfg
    simp [engine_init, audio_scenario, resolved_sink, sink_log,
          audio_first_sink_spec, audio_init_spec, audio_sink_available_spec, hmem]

/-- C6 witness: configured sink "pulse" unavailable — with "alsa" available
the engine falls back to "alsa" and startup succeeds; with no sinks at all
audio is disabled and startup still succeeds. -/
theorem C6_witness :
    ((engine_init (audio_scenario [] "pulse") false).success = true ∧
     (engine_init (audio_scenario [] "pulse") false).run = true ∧
     (engine_init (audio_scenario [] "pulse") false).resolved = none ∧
     (engine_init (audio_scenario [] "pulse") false).audio_log =
       some (AudioLog.disabled "pulse")) ∧
    ((engine_init (audio_scenario ["alsa"] "pulse") false).success = true ∧
     (engine_init (audio_scenario ["alsa"] "pulse") false).run = true ∧
     (engine_init (audio_scenario ["alsa"] "pulse") false).resolved = some "alsa" ∧
     (engine_init (audio_scenario ["alsa"] "pulse") false).audio_log =
       some (AudioLog.fallback "pulse" "alsa")) :=
  ⟨(C6_audio_fallback [] "pulse" (by decide)).1 rfl,
   (C6_audio_fallback ["alsa"] "pulse" (by decide)).2 "alsa" [] rfl⟩

/-- C8 (amended): when a pending screenshot request is serviced, the loop is
not stopped and the run flag is untouched, the request flag is cleared, the
file is named `screenshot_<ticks>.png` when PNG is supported and
`screenshot_<ticks>.tga` otherwise, a write failure is logged as an error,
the in-memory image is freed regardless of the capture or write outcome — but
a capture failure is NOT logged: it silently skips the write. -/
theorem C8_screenshot_amended (s : LoopState) (inp : IterInput)
    (hr : s.run = true) (hg : inp.game_running = true) (hev : inp.events = [])
    (hen : s.enable_screen_updates = true) (hts : s.take_screenshot = true) :
    (engine_loop s inp).2.stopped = false ∧
    (engine_loop s inp).1.run = true ∧
    (engine_loop s inp).2.screenshot =
      some (service_screenshot inp.png_ok inp.capture_fails inp.write_fails inp.ticks) ∧
    (engine_loop s inp).1.take_screenshot = false ∧
    (service_screenshot inp.png_ok inp.capture_fails inp.write_fails inp.ticks).freed = true ∧
    (inp.capture_fails = false →
      (service_screenshot inp.png_ok inp.capture_fails inp.write_fails inp.ticks).filename =
        some (if inp.png_ok = true then "screenshot_" ++ toString inp.ticks ++ ".png"
              else "screenshot_" ++ toString inp.ticks ++ ".tga") ∧
      (service_screenshot inp.png_ok inp.capture_fails inp.write_fails inp.ticks).logged_error =
        inp.write_fails ∧
      (service_screenshot inp.png_ok inp.capture_fails inp.write_fails inp.ticks).logged_success =
        !inp.write_fails) ∧
    (inp.capture_fails = true →
      (service_screenshot inp.png_ok inp.capture_fails inp.write_fails inp.ticks).filename = none ∧
      (service_screenshot inp.png_ok inp.capture_fails inp.write_fails inp.ticks).logged_error =
        false ∧
      (service_screenshot inp.png_ok inp.capture_fails inp.write_fails inp.ticks).logged_success =
        false) := by
  obtain ⟨e1, e2, e3, e4, e5, e6, e7, e8, e9, e10, e11, e12, e13, e14, e15, e16, e17⟩ :=
    el_char s inp hr hg
  obtain ⟨l1, l2, l3, l4, l5, l6, l7, l8, l9, l10, l11⟩ := loop_advance_fields s inp
  have hde : drain_events s inp.events = (s, []) := by rw [hev]; rfl
  have hen2 : (loop_advance s inp).1.enable_screen_updates = true := by
    rw [l3, hde]; exact hen
  have hts2 : (loop_advance s inp).1.take_screenshot = true := by
    rw [l2, hde]; exact hts
  refine ⟨e1, ?_, ?_, ?_, ?_, ?_, ?_⟩
  · rw [e9, l1, hde]; exact hr
  · rw [e16, if_pos ⟨hen2, hts2⟩]
  · rw [e17, if_pos ⟨hen2, hts2⟩]
  · unfold service_screenshot; split_ifs <;> rfl
  · intro hc
    unfold service_screenshot
    rw [if_neg (by rw [hc]; exact Bool.false_ne_true)]
    split_ifs with hpng <;> simp [hpng]
  · intro hc
    unfold service_screenshot
    rw [if_pos hc]
    exact ⟨rfl, rfl, rfl⟩

/-- C8 counterexample: when the frame capture itself fails, nothing is logged
(neither an error nor a success message), refuting "any capture or encode
failure is logged"; the image is still freed and the request cleared. -/
theorem C8_counterexample :
    (engine_loop { fresh_state with take_screenshot := true }
        { quiet_input with capture_fails := true }).2.screenshot =
      some { attempted := true, filename := none, write_failed := false,
             logged_error := false, logged_success := false, freed := true } ∧
    (engine_loop { fresh_state with take_screenshot := true }
        { quiet_input with capture_fails := true }).1.take_screenshot = false := by
  decide

/-- C8 witness: the amended screenshot behaviour evaluated on a pending
request with a healthy capture and PNG support. -/
theorem C8_witness :
    (engine_loop { fresh_state with take_screenshot := true } quiet_input).2.screenshot =
      some (service_screenshot true false false 0) ∧
    (service_screenshot true false false 0).filename =
      some ("screenshot_" ++ toString (0 : Nat) ++ ".png") :=
  ⟨(C8_screenshot_amended { fresh_state with take_screenshot := true } quiet_input
      rfl rfl rfl rfl rfl).2.2.1,
   ((C8_screenshot_amended { fresh_state with take_screenshot := true } quiet_input
      rfl rfl rfl rfl rfl).2.2.2.2.2.1 rfl).1⟩

/-- C9 (amended): the run flag is set true by `engine_init` exactly on full
success (otherwise left as it was); it is cleared by the interrupt handler and
by an `SDL_QUIT` (window close / quit) event, and by nothing else in the
loop — in particular, when the simulation reports it has finished the
iteration signals stop but leaves the run flag true; once false it is never
set true again by the loop. -/
theorem C9_run_state_amended :
    (∀ ex run0, (engine_init ex run0).run = ((engine_init ex run0).success || run0)) ∧
    (∀ s, (exit_handler s).run = false) ∧
    (∀ s inp, ((engine_loop s inp).1.run = true) ↔
      (s.run = true ∧ (inp.game_running = true → has_quit inp.events = false))) ∧
    (∀ s inp, s.run = true → inp.game_running = false →
      (engine_loop s inp).2.stopped = true ∧ (engine_loop s inp).1.run = true) := by
  refine ⟨?_, ?_, ?_, ?_⟩
  · intro ex run0
    unfold engine_init
    split_ifs <;> simp
  · intro s
    rfl
  · intro s inp
    by_cases hr : s.run = true
    · cases hgr : inp.game_running with
      | false =>
        have hE : engine_loop s inp = (s, stopped_effects) := by
          unfold engine_loop
          rw [if_pos (Or.inr hgr)]
        rw [hE]
        simp [hr, hgr]
      | true =>
        obtain ⟨e1, e2, e3, e4, e5, e6, e7, e8, e9, e10, e11, e12, e13, e14, e15, e16, e17⟩ :=
          el_char s inp hr hgr
        have l1 := (loop_advance_fields s inp).1
        have d3 := (de_state_fields inp.events s).2.2.1
        rw [e9, l1, d3, hr]
        cases hq : has_quit inp.events <;> simp [hgr, hq]
    · have hr2 : s.run = false := by
        cases h2 : s.run
        · rfl
        · exact absurd h2 hr
      have hE : engine_loop s inp = (s, stopped_effects) := by
        unfold engine_loop
        rw [if_pos (Or.inl hr2)]
      rw [hE]
      simp [hr2]
  · intro s inp hr hg
    have hE : engine_loop s inp = (s, stopped_effects) := by
      unfold engine_loop
      rw [if_pos (Or.inr hg)]
    rw [hE]
    exact ⟨rfl, hr⟩

/-- C9 counterexample: with the run flag up and the simulation reporting
finished, the iteration stops the loop but the run flag remains true — the
simulation finishing does NOT set Run-State false, refuting that clause of
the claim. -/
theorem C9_counterexample :
    (engine_loop fresh_state { quiet_input with game_running := false }).2.stopped = true ∧
    (engine_loop fresh_state { quiet_input with game_running := false }).1.run = true := by
  decide

/-- Invariant run of the loop in visual-debugger mode: with the run flag up,
the game running, no quit and no F5 events, the total amount added to each
accumulator is 20 ms per iteration that carried a single-step (SPACE) request,
and the step flag is back to false after every iteration. -/
theorem run_loop_debugger_fields (inputs : List IterInput) : ∀ s : LoopState,
    s.run = true → s.visual_debugger = true → s.debugger_proceed = false →
    (∀ i ∈ inputs, i.game_running = true ∧ has_quit i.events = false ∧
      has_keydown Key.f5 i.events = false) →
    total_advanced (run_loop s inputs).2 =
      20 * inputs.countP (fun i => has_keydown Key.space i.events) ∧
    (run_loop s inputs).1.run = true ∧
    (run_loop s inputs).1.visual_debugger = true ∧
    (run_loop s inputs).1.debugger_proceed = false := by
  induction inputs with
  | nil =>
    intro s hr hv hpr _
    exact ⟨rfl, hr, hv, hpr⟩
  | cons i is ih =>
    intro s hr hv hpr hin
    obtain ⟨hg, hq, h5⟩ := hin i (List.mem_cons_self i is)
    have hin' : ∀ j ∈ is, j.game_running = true ∧ has_quit j.events = false ∧
        has_keydown Key.f5 j.events = false :=
      fun j hj => hin j (List.mem_cons_of_mem i hj)
    obtain ⟨e1, e2, e3, e4, e5, e6, e7, e8, e9, e10, e11, e12, e13, e14, e15, e16, e17⟩ :=
      el_char s i hr hg
    obtain ⟨l1, l2, l3, l4, l5, l6, l7, l8, l9, l10, l11⟩ := loop_advance_fields s i
    obtain ⟨d1, d2, d3, d4, d5, d6, d7, d8⟩ := de_state_fields i.events s
    have hdvd : (drain_events s i.events).1.visual_debugger = true := by
      rw [d6 h5]; exact hv
    have hdrun : (drain_events s i.events).1.run = true := by
      rw [d3, hr, hq]; rfl
    have hdpr : (drain_events s i.events).1.debugger_proceed = has_keydown Key.space i.events := by
      rw [d5, hpr]; rfl
    obtain ⟨hpr', hadv⟩ := l11 hdvd
    have hr' : (engine_loop s i).1.run = true := by rw [e9, l1]; exact hdrun
    have hv' : (engine_loop s i).1.visual_debugger = true := by rw [e10, l5]; exact hdvd
    have hpr2 : (engine_loop s i).1.debugger_proceed = false := by rw [e11]; exact hpr'
    obtain ⟨ih1, ih2, ih3, ih4⟩ := ih (engine_loop s i).1 hr' hv' hpr2 hin'
    have hstep : run_loop s (i :: is) =
        ((run_loop (engine_loop s i).1 is).1,
         (engine_loop s i).2 :: (run_loop (engine_loop s i).1 is).2) := rfl
    rw [hstep]
    refine ⟨?_, ih2, ih3, ih4⟩
    have hta : total_advanced ((engine_loop s i).2 :: (run_loop (engine_loop s i).1 is).2) =
        (engine_loop s i).2.advanced + total_advanced (run_loop (engine_loop s i).1 is).2 := by
      simp [total_advanced]
    rw [hta, ih1, e4, hadv, hdpr, List.countP_cons]
    cases hsp : has_keydown Key.space i.events
    · simp [hsp]
    · simp [hsp]
      ring

/-- C4: with the visual debugger active throughout (no F5 toggles) and the
loop running, the accumulators advance in total by exactly 20 ms per iteration
carrying a single-step request and not at all otherwise (zero requests mean
zero advancement), and the single-step flag is consumed — back to false —
after every iteration. -/
theorem C4_debugger_single_step (s : LoopState) (inputs : List IterInput)
    (hr : s.run = true) (hv : s.visual_debugger = true) (hpr : s.debugger_proceed = false)
    (hin : ∀ i ∈ inputs, i.game_running = true ∧ has_quit i.events = false ∧
      has_keydown Key.f5 i.events = false) :
    total_advanced (run_loop s inputs).2 =
      20 * inputs.countP (fun i => has_keydown Key.space i.events) ∧
    (∀ k : Nat, (run_loop s (inputs.take k)).1.debugger_proceed = false) := by
  refine ⟨(run_loop_debugger_fields inputs s hr hv hpr hin).1, ?_⟩
  intro k
  exact (run_loop_debugger_fields (inputs.take k) s hr hv hpr
    (fun i hi => hin i (List.take_subset k inputs hi))).2.2.2

/-- C4 witness: three debugger-mode iterations with step requests in the
first and third advance the accumulators by exactly 40 ms in total, and the
step flag ends false. -/
theorem C4_witness :
    total_advanced (run_loop c4_state c4_inputs).2 = 40 ∧
    (run_loop c4_state (c4_inputs.take 3)).1.debugger_proceed = false :=
  ⟨(C4_debugger_single_step c4_state c4_inputs rfl rfl rfl (by decide)).1,
   (C4_debugger_single_step c4_state c4_inputs rfl rfl rfl (by decide)).2 3⟩

theorem mouse_hide_step_pos (mvt dt : Int) (h : 0 < mvt) :
    mouse_hide_step mvt dt = (mvt - dt, decide (mvt - dt ≤ 0)) := by
  unfold mouse_hide_step
  rw [if_pos h]

theorem mouse_hide_step_nonpos (mvt dt : Int) (h : mvt ≤ 0) :
    mouse_hide_step mvt dt = (mvt, false) := by
  unfold mouse_hide_step
  rw [if_neg (by omega)]

/-- One running iteration without quit or mouse-motion events: the run flag
stays up and the mouse countdown / hide flag follow `mouse_hide_step` applied
to the pre-iteration countdown and the iteration's delta. -/
theorem el_mouse (s : LoopState) (i : IterInput)
    (hr : s.run = true) (hg : i.game_running = true)
    (hq : has_quit i.events = false) (hm : has_mousemotion i.events = false) :
    (engine_loop s i).1.run = true ∧
    (engine_loop s i).1.mouse_visible_ticks =
      (mouse_hide_step s.mouse_visible_ticks (i.dt : Int)).1 ∧
    (engine_loop s i).2.hide_fired =
      (mouse_hide_step s.mouse_visible_ticks (i.dt : Int)).2 := by
  obtain ⟨e1, e2, e3, e4, e5, e6, e7, e8, e9, e10, e11, e12, e13, e14, e15, e16, e17⟩ :=
    el_char s i hr hg
  obtain ⟨l1, l2, l3, l4, l5, l6, l7, l8, l9, l10, l11⟩ := loop_advance_fields s i
  obtain ⟨d1, d2, d3, d4, d5, d6, d7, d8⟩ := de_state_fields i.events s
  refine ⟨?_, ?_, ?_⟩
  · rw [e9, l1, d3, hr, hq]; rfl
  · rw [e12, l6, d7 hm]
  · rw [e3]
    show (mouse_phase (drain_events s i.events).1 i.dt).2 = _
    rw [(mouse_phase_fields (drain_events s i.events).1 i.dt).2.2.2.2.2.2.2.2.2, d7 hm]

/-- Once the countdown is non-positive, the hide action never fires again on
any later running iteration (without mouse motion, the countdown is frozen). -/
theorem run_loop_hide_nonpos (inputs : List IterInput) : ∀ s : LoopState,
    s.run = true →
    (∀ i ∈ inputs, i.game_running = true ∧ has_quit i.events = false ∧
      has_mousemotion i.events = false) →
    s.mouse_visible_ticks ≤ 0 →
    ((run_loop s inputs).2.countP (fun e => e.hide_fired)) = 0 := by
  induction inputs with
  | nil => intro s _ _ _; rfl
  | cons i is ih =>
    intro s hr hin hm0
    obtain ⟨hg, hq, hm⟩ := hin i (List.mem_cons_self i is)
    have hin' : ∀ j ∈ is, j.game_running = true ∧ has_quit j.events = false ∧
        has_mousemotion j.events = false :=
      fun j hj => hin j (List.mem_cons_of_mem i hj)
    obtain ⟨m1, m2, m3⟩ := el_mouse s i hr hg hq hm
    have hms := mouse_hide_step_nonpos s.mouse_visible_ticks (i.dt : Int) hm0
    have hfired : (engine_loop s i).2.hide_fired = false := by rw [m3, hms]
    have hmvt' : (engine_loop s i).1.mouse_visible_ticks ≤ 0 := by
      rw [m2, hms]; exact hm0
    have hstep : run_loop s (i :: is) =
        ((run_loop (engine_loop s i).1 is).1,
         (engine_loop s i).2 :: (run_loop (engine_loop s i).1 is).2) := rfl
    rw [hstep, List.countP_cons, ih (engine_loop s i).1 m1 hin' hmvt']
    simp [hfired]

/-- With a positive countdown covered by the remaining deltas, the hide action
fires exactly once over the run. -/
theorem run_loop_hide_pos (inputs : List IterInput) : ∀ s : LoopState,
    s.run = true →
    (∀ i ∈ inputs, i.game_running = true ∧ has_quit i.events = false ∧
      has_mousemotion i.events = false) →
    0 < s.mouse_visible_ticks →
    s.mouse_visible_ticks ≤ (total_dts inputs : Int) →
    ((run_loop s inputs).2.countP (fun e => e.hide_fired)) = 1 := by
  induction inputs with
  | nil =>
    intro s _ _ hpos hle
    have h0 : (total_dts ([] : List IterInput) : Int) = 0 := rfl
    omega
  | cons i is ih =>
    intro s hr hin hpos hle
    obtain ⟨hg, hq, hm⟩ := hin i (List.mem_cons_self i is)
    have hin' : ∀ j ∈ is, j.game_running = true ∧ has_quit j.events = false ∧
        has_mousemotion j.events = false :=
      fun j hj => hin j (List.mem_cons_of_mem i hj)
    obtain ⟨m1, m2, m3⟩ := el_mouse s i hr hg hq hm
    have hms := mouse_hide_step_pos s.mouse_visible_ticks (i.dt : Int) hpos
    have hstep : run_loop s (i :: is) =
        ((run_loop (engine_loop s i).1 is).1,
         (engine_loop s i).2 :: (run_loop (engine_loop s i).1 is).2) := rfl
    rw [hstep, List.countP_cons]
    by_cases hc : s.mouse_visible_ticks - (i.dt : Int) ≤ 0
    · have hfired : (engine_loop s i).2.hide_fired = true := by
        rw [m3, hms]
        exact decide_eq_true hc
      have hmvt' : (engine_loop s i).1.mouse_visible_ticks ≤ 0 := by
        rw [m2, hms]; exact hc
      rw [run_loop_hide_nonpos is (engine_loop s i).1 m1 hin' hmvt']
      simp [hfired]
    · have hfired : (engine_loop s i).2.hide_fired = false := by
        rw [m3, hms]
        exact decide_eq_false hc
      have hpos' : 0 < (engine_loop s i).1.mouse_visible_ticks := by
        rw [m2, hms]; omega
      have hsplit : (total_dts (i :: is) : Int) = (i.dt : Int) + (total_dts is : Int) := by
        unfold total_dts
        push_cast [List.map_cons, List.sum_cons]
        ring
      have hle' : (engine_loop s i).1.mouse_visible_ticks ≤ (total_dts is : Int) := by
        rw [m2, hms]
        omega
      rw [ih (engine_loop s i).1 m1 hin' hpos' hle']
      simp [hfired]

/-- Per-position characterization of the hide flag: on a running sequence
without quit or mouse-motion events, the `k`-th iteration fires the hide
exactly when the cumulative delta crosses the initial countdown there. -/
theorem run_loop_hide_char (inputs : List IterInput) : ∀ s : LoopState,
    s.run = true →
    (∀ i ∈ inputs, i.game_running = true ∧ has_quit i.events = false ∧
      has_mousemotion i.events = false) →
    ∀ k, k < inputs.length →
      ((((run_loop s inputs).2.getD k stopped_effects).hide_fired = true) ↔
        (0 < s.mouse_visible_ticks - (dts_before inputs k : Int) ∧
         s.mouse_visible_ticks - (dts_before inputs (k + 1) : Int) ≤ 0)) := by
  induction inputs with
  | nil =>
    intro s _ _ k hk
    exact absurd hk (by simp)
  | cons i is ih =>
    intro s hr hin k hk
    obtain ⟨hg, hq, hm⟩ := hin i (List.mem_cons_self i is)
    have hin' : ∀ j ∈ is, j.game_running = true ∧ has_quit j.events = false ∧
        has_mousemotion j.events = false :=
      fun j hj => hin j (List.mem_cons_of_mem i hj)
    obtain ⟨m1, m2, m3⟩ := el_mouse s i hr hg hq hm
    have hstep : run_loop s (i :: is) =
        ((run_loop (engine_loop s i).1 is).1,
         (engine_loop s i).2 :: (run_loop (engine_loop s i).1 is).2) := rfl
    rw [hstep]
    have hdts : ∀ n, dts_before (i :: is) (n + 1) = i.dt + dts_before is n := by
      intro n
      simp [dts_before]
    cases k with
    | zero =>
      have hd0 : dts_before (i :: is) 0 = 0 := rfl
      rw [List.getD_cons_zero, m3, hd0, hdts 0]
      by_cases hpos : 0 < s.mouse_visible_ticks
      · rw [mouse_hide_step_pos _ _ hpos]
        rw [decide_eq_true_eq]
        push_cast
        have hd00 : dts_before is 0 = 0 := rfl
        rw [hd00]
        push_cast
        omega
      · rw [mouse_hide_step_nonpos _ _ (by omega)]
        push_cast
        constructor
        · intro hfalse
          exact absurd hfalse (by simp)
        · intro hcontr
          exfalso
          omega
    | succ k =>
      have hk' : k < is.length := by simpa using hk
      rw [List.getD_cons_succ]
      by_cases hpos : 0 < s.mouse_visible_ticks
      · have hmvt' : (engine_loop s i).1.mouse_visible_ticks =
            s.mouse_visible_ticks - (i.dt : Int) := by
          rw [m2, mouse_hide_step_pos _ _ hpos]
        rw [ih (engine_loop s i).1 m1 hin' k hk', hmvt', hdts k, hdts (k + 1)]
        push_cast
        omega
      · have hmvt' : (engine_loop s i).1.mouse_visible_ticks = s.mouse_visible_ticks := by
          rw [m2, mouse_hide_step_nonpos _ _ (by omega)]
        rw [ih (engine_loop s i).1 m1 hin' k hk', hmvt', hdts k, hdts (k + 1)]
        push_cast
        omega

/-- C7: starting from a 1000 ms countdown, over any running sequence of
iterations without mouse-motion (or quit) events whose deltas sum to at least
1000 ms, the cursor-hide action fires exactly once, namely at the iteration
where the cumulative delta first reaches 1000 ms, and never on any later
iteration. -/
theorem C7_mouse_hide (s : LoopState) (inputs : List IterInput)
    (hr : s.run = true) (hmvt : s.mouse_visible_ticks = 1000)
    (hin : ∀ i ∈ inputs, i.game_running = true ∧ has_quit i.events = false ∧
      has_mousemotion i.events = false)
    (hsum : 1000 ≤ total_dts inputs) :
    ((run_loop s inputs).2.countP (fun e => e.hide_fired)) = 1 ∧
    (∀ k, k < inputs.length →
      ((((run_loop s inputs).2.getD k stopped_effects).hide_fired = true) ↔
        ((dts_before inputs k : Int) < 1000 ∧
         (1000 : Int) ≤ (dts_before inputs (k + 1) : Int)))) := by
  constructor
  · apply run_loop_hide_pos inputs s hr hin
    · rw [hmvt]
      norm_num
    · rw [hmvt]
      exact_mod_cast hsum
  · intro k hk
    rw [run_loop_hide_char inputs s hr hin k hk, hmvt]
    omega

/-- C7 witness: two 600 ms iterations from a fresh 1000 ms countdown fire the
hide action exactly once. -/
theorem C7_witness :
    ((run_loop fresh_state c7_inputs).2.countP (fun e => e.hide_fired)) = 1 :=
  (C7_mouse_hide fresh_state c7_inputs rfl rfl (by decide) (by decide)).1

/-- Running the loop over a concatenation threads the state through the first
segment into the second. -/
theorem run_loop_append_state (L1 L2 : List IterInput) : ∀ s : LoopState,
    (run_loop s (L1 ++ L2)).1 = (run_loop (run_loop s L1).1 L2).1 := by
  induction L1 with
  | nil => intro s; rfl
  | cons i is ih =>
    intro s
    exact ih (engine_loop s i).1

/-- While screen updates stay disabled (running iterations with no window,
quit — and hence no enabling — events), a pending screenshot request is
neither serviced nor cleared: the flag stays set, no iteration renders, and
no screenshot is attempted. -/
theorem run_loop_screenshot_pending (L1 : List IterInput) : ∀ s : LoopState,
    s.run = true → s.take_screenshot = true → s.enable_screen_updates = false →
    (∀ i ∈ L1, i.game_running = true ∧ has_quit i.events = false ∧
      has_window_event i.events = false) →
    (run_loop s L1).1.run = true ∧
    (run_loop s L1).1.take_screenshot = true ∧
    (run_loop s L1).1.enable_screen_updates = false ∧
    (∀ eff ∈ (run_loop s L1).2, eff.screenshot = none ∧ eff.rendered = false) := by
  induction L1 with
  | nil =>
    intro s hr hts hen _
    exact ⟨hr, hts, hen, fun eff heff => absurd heff (by simp [run_loop])⟩
  | cons i is ih =>
    intro s hr hts hen hin
    obtain ⟨hg, hq, hw⟩ := hin i (List.mem_cons_self i is)
    have hin' : ∀ j ∈ is, j.game_running = true ∧ has_quit j.events = false ∧
        has_window_event j.events = false :=
      fun j hj => hin j (List.mem_cons_of_mem i hj)
    obtain ⟨e1, e2, e3, e4, e5, e6, e7, e8, e9, e10, e11, e12, e13, e14, e15, e16, e17⟩ :=
      el_char s i hr hg
    obtain ⟨l1, l2, l3, l4, l5, l6, l7, l8, l9, l10, l11⟩ := loop_advance_fields s i
    obtain ⟨d1, d2, d3, d4, d5, d6, d7, d8⟩ := de_state_fields i.events s
    have hden : (drain_events s i.events).1.enable_screen_updates = false := by
      rw [d8 hw]; exact hen
    have hen2 : (loop_advance s i).1.enable_screen_updates = false := by
      rw [l3]; exact hden
    have hcond : ¬((loop_advance s i).1.enable_screen_updates = true ∧
        (loop_advance s i).1.take_screenshot = true) := by
      rw [hen2]
      rintro ⟨hcontr, -⟩
      exact Bool.false_ne_true hcontr
    have hr' : (engine_loop s i).1.run = true := by
      rw [e9, l1, d3, hr, hq]; rfl
    have hts' : (engine_loop s i).1.take_screenshot = true := by
      rw [e17, if_neg hcond, l2, d4, hts]; rfl
    have hen' : (engine_loop s i).1.enable_screen_updates = false := by
      rw [e13]; exact hen2
    have hshot : (engine_loop s i).2.screenshot = none := by
      rw [e16, if_neg hcond]
    have hrend : (engine_loop s i).2.rendered = false := by
      rw [e15]; exact hen2
    obtain ⟨ih1, ih2, ih3, ih4⟩ := ih (engine_loop s i).1 hr' hts' hen' hin'
    have hstep : run_loop s (i :: is) =
        ((run_loop (engine_loop s i).1 is).1,
         (engine_loop s i).2 :: (run_loop (engine_loop s i).1 is).2) := rfl
    rw [hstep]
    refine ⟨ih1, ih2, ih3, ?_⟩
    intro eff heff
    rcases List.mem_cons.mp heff with heq | hmem
    · subst heq
      exact ⟨hshot, hrend⟩
    · exact ih4 eff hmem

/-- C10: a screenshot request pending while screen updates are disabled is not
discarded — the flag stays set through every disabled iteration (in which no
screenshot is attempted) — and in the first subsequent iteration whose event
drain re-enables screen output the request is serviced exactly then and the
flag cleared. -/
theorem C10_pending_screenshot (s : LoopState) (L1 : List IterInput) (iE : IterInput)
    (hr : s.run = true) (hts : s.take_screenshot = true)
    (hen : s.enable_screen_updates = false)
    (h1 : ∀ i ∈ L1, i.game_running = true ∧ has_quit i.events = false ∧
      has_window_event i.events = false)
    (hEg : iE.game_running = true)
    (hEe : (drain_events (run_loop s L1).1 iE.events).1.enable_screen_updates = true) :
    (∀ eff ∈ (run_loop s L1).2, eff.screenshot = none) ∧
    (∀ k : Nat, (run_loop s (L1.take k)).1.take_screenshot = true) ∧
    (engine_loop (run_loop s L1).1 iE).2.screenshot =
      some (service_screenshot iE.png_ok iE.capture_fails iE.write_fails iE.ticks) ∧
    (engine_loop (run_loop s L1).1 iE).1.take_screenshot = false ∧
    (run_loop s (L1 ++ [iE])).1.take_screenshot = false := by
  obtain ⟨p1, p2, p3, p4⟩ := run_loop_screenshot_pending L1 s hr hts hen h1
  obtain ⟨e1, e2, e3, e4, e5, e6, e7, e8, e9, e10, e11, e12, e13, e14, e15, e16, e17⟩ :=
    el_char (run_loop s L1).1 iE p1 hEg
  obtain ⟨l1, l2, l3, l4, l5, l6, l7, l8, l9, l10, l11⟩ :=
    loop_advance_fields (run_loop s L1).1 iE
  obtain ⟨d1, d2, d3, d4, d5, d6, d7, d8⟩ := de_state_fields iE.events (run_loop s L1).1
  have hen2 : (loop_advance (run_loop s L1).1 iE).1.enable_screen_updates = true := by
    rw [l3]; exact hEe
  have hts2 : (loop_advance (run_loop s L1).1 iE).1.take_screenshot = true := by
    rw [l2, d4, p2]; rfl
  refine ⟨fun eff heff => (p4 eff heff).1, ?_, ?_, ?_, ?_⟩
  · intro k
    exact (run_loop_screenshot_pending (L1.take k) s hr hts hen
      (fun i hi => h1 i (List.take_subset k L1 hi))).2.1
  · rw [e16, if_pos ⟨hen2, hts2⟩]
  · rw [e17, if_pos ⟨hen2, hts2⟩]
  · have happ : (run_loop s (L1 ++ [iE])).1 = (run_loop (run_loop s L1).1 [iE]).1 :=
      run_loop_append_state L1 [iE] s
    rw [happ]
    have hsingle : (run_loop (run_loop s L1).1 [iE]).1 =
        (engine_loop (run_loop s L1).1 iE).1 := rfl
    rw [hsingle, e17, if_pos ⟨hen2, hts2⟩]

/-- C10 witness: a pending request survives one minimized iteration and is
serviced exactly when the window-shown event re-enables screen updates. -/
theorem C10_witness :
    (engine_loop (run_loop c10_state [quiet_input]).1 c10_enable_input).2.screenshot =
      some (service_screenshot true false false 0) ∧
    (run_loop c10_state ([quiet_input] ++ [c10_enable_input])).1.take_screenshot = false ∧
    (run_loop c10_state [quiet_input]).1.take_screenshot = true :=
  ⟨(C10_pending_screenshot c10_state [quiet_input] c10_enable_input
      rfl rfl rfl (by decide) rfl (by decide)).2.2.1,
   (C10_pending_screenshot c10_state [quiet_input] c10_enable_input
      rfl rfl rfl (by decide) rfl (by decide)).2.2.2.2,
   (C10_pending_screenshot c10_state [quiet_input] c10_enable_input
      rfl rfl rfl (by decide) rfl (by decide)).2.1 1⟩

/-- C9 witness: the amended run-flag characterization applied to a concrete
stopped iteration. -/
theorem C9_witness :
    (engine_loop { fresh_state with console_open := true }
      { quiet_input with game_running := false }).2.stopped = true ∧
    (engine_loop { fresh_state with console_open := true }
      { quiet_input with game_running := false }).1.run = true :=
  C9_run_state_amended.2.2.2 { fresh_state with console_open := true }
    { quiet_input with game_running := false } rfl rfl

end OpenOMF
